import Mathlib

/-!
Shallow embedding of `src/DBHelper.py`, a thin data-access layer over MySQL:
a connection pool, a generic query executor (`execute_query`) that swallows
database errors, and table-specific helpers for USERS, TRAPED and MESSAGE.

Modelling choices:
* The database is explicit state: each table is a list of tuples of column
  values, plus a created-flag per table (`CREATE TABLE IF NOT EXISTS`).
* The pool is a count of available connections; acquiring decrements it,
  `conn.close()` (return to pool) increments it.
* The log is a list of entries tagged with the logging level.
* Driver-level failures (database unreachable, pool exhausted, statement
  error, commit error, fetch error) are injected through a `Fault` value
  describing where, during one call, the driver raises; `Fault.noFault` is a
  fault-free call.  Statement-intrinsic errors (missing table, duplicate
  primary key) arise from the statement semantics itself.
* `execute_query` catches `mysql.connector.Error` and `Exception`, which in
  this embedding is every failure, so it is a total function returning a
  Python-level result value (`PyResult`) and the new system state.
-/

namespace DBHelper

/-- A MySQL cell value: the module only ever sees strings and integers. -/
inductive Val where
  | str (s : String)
  | int (n : Int)
deriving DecidableEq, Repr

/-- A result row, as the tuple the driver returns. -/
abbrev Row := List Val

/-- A log line with its logging level. -/
inductive LogEntry where
  | debug (msg : String)
  | info (msg : String)
  | error (msg : String)
deriving DecidableEq, Repr

/-- Is a log entry an error-level entry? -/
def LogEntry.isError : LogEntry → Bool
  | .error _ => true
  | _ => false

/-- The persistent database: the three tables of `init_db`, each with a flag
recording whether `CREATE TABLE` has run (statements on an absent table fail).
`users` rows are (UID, EMAIL, PASSWORD); `traped` rows are
(OWNER, APP, UID, PASSWORD); `message` rows are (UID, NAME, EMAIL, MSG). -/
structure DB where
  usersCreated : Bool
  trapedCreated : Bool
  messageCreated : Bool
  users : List (String × String × String)
  traped : List (String × String × String × String)
  message : List (String × String × String × String)
deriving DecidableEq, Repr

/-- The SQL statements issued by the module, with their bind parameters. -/
inductive Stmt where
  | createUsers
  | createTraped
  | createMessage
  | selectOneUser (uid : String)
  | insertUsers (uid email pas : String)
  | selectPasswordUser (uid : String)
  | insertTraped (owner app uid pas : String)
  | selectTrapedOwner (owner : String)
  | countTrapedOwner (owner : String)
  | selectTrapedAll
  | countTrapedAll
  | selectUsersAll
  | countUsersAll
  | insertMessage (uid name email msg : String)
  | selectMessageAll
  | countMessageAll
deriving DecidableEq, Repr

/-- Semantics of `cursor.execute` for each statement: the updated (not yet
committed) database and the result set, or a MySQL error (missing table,
duplicate primary key on USERS.UID). -/
def runStmt : Stmt → DB → Except String (DB × List Row)
  | .createUsers, db => .ok ({ db with usersCreated := true }, [])
  | .createTraped, db => .ok ({ db with trapedCreated := true }, [])
  | .createMessage, db => .ok ({ db with messageCreated := true }, [])
  | .selectOneUser uid, db =>
      if db.usersCreated then
        .ok (db, (db.users.filter (fun u => u.1 == uid)).map (fun _ => [Val.int 1]))
      else .error "Table USERS does not exist"
  | .insertUsers uid email pas, db =>
      if db.usersCreated then
        if db.users.any (fun u => u.1 == uid) then
          .error ("Duplicate entry for key PRIMARY: " ++ uid)
        else .ok ({ db with users := db.users ++ [(uid, email, pas)] }, [])
      else .error "Table USERS does not exist"
  | .selectPasswordUser uid, db =>
      if db.usersCreated then
        .ok (db, (db.users.filter (fun u => u.1 == uid)).map (fun u => [Val.str u.2.2]))
      else .error "Table USERS does not exist"
  | .insertTraped owner app uid pas, db =>
      if db.trapedCreated then
        .ok ({ db with traped := db.traped ++ [(owner, app, uid, pas)] }, [])
      else .error "Table TRAPED does not exist"
  | .selectTrapedOwner owner, db =>
      if db.trapedCreated then
        .ok (db, (db.traped.filter (fun t => t.1 == owner)).map
          (fun t => [Val.str t.1, Val.str t.2.1, Val.str t.2.2.1, Val.str t.2.2.2]))
      else .error "Table TRAPED does not exist"
  | .countTrapedOwner owner, db =>
      if db.trapedCreated then
        .ok (db, [[Val.int ((db.traped.filter (fun t => t.1 == owner)).length : Int)]])
      else .error "Table TRAPED does not exist"
  | .selectTrapedAll, db =>
      if db.trapedCreated then
        .ok (db, db.traped.map
          (fun t => [Val.str t.1, Val.str t.2.1, Val.str t.2.2.1, Val.str t.2.2.2]))
      else .error "Table TRAPED does not exist"
  | .countTrapedAll, db =>
      if db.trapedCreated then .ok (db, [[Val.int (db.traped.length : Int)]])
      else .error "Table TRAPED does not exist"
  | .selectUsersAll, db =>
      if db.usersCreated then
        .ok (db, db.users.map (fun u => [Val.str u.1, Val.str u.2.1, Val.str u.2.2]))
      else .error "Table USERS does not exist"
  | .countUsersAll, db =>
      if db.usersCreated then .ok (db, [[Val.int (db.users.length : Int)]])
      else .error "Table USERS does not exist"
  | .insertMessage uid name email msg, db =>
      if db.messageCreated then
        .ok ({ db with message := db.message ++ [(uid, name, email, msg)] }, [])
      else .error "Table MESSAGE does not exist"
  | .selectMessageAll, db =>
      if db.messageCreated then
        .ok (db, db.message.map
          (fun m => [Val.str m.1, Val.str m.2.1, Val.str m.2.2.1, Val.str m.2.2.2]))
      else .error "Table MESSAGE does not exist"
  | .countMessageAll, db =>
      if db.messageCreated then .ok (db, [[Val.int (db.message.length : Int)]])
      else .error "Table MESSAGE does not exist"

/-- The whole mutable system the module touches: the database, the pool's
available-connection count, and the log stream. -/
structure SysState where
  db : DB
  avail : Nat
  log : List LogEntry
deriving DecidableEq, Repr

/-- Where, during one call, the driver raises an error.  `mysqlKind` tells
whether the raised error is a `mysql.connector.Error` (caught by the first
except clause) or some other `Exception` (caught by the second). -/
inductive Fault where
  | noFault
  | atAcquire (msg : String)
  | atCursor (mysqlKind : Bool) (msg : String)
  | atExecute (mysqlKind : Bool) (msg : String)
  | atCommit (mysqlKind : Bool) (msg : String)
  | atFetch (mysqlKind : Bool) (msg : String)
deriving DecidableEq, Repr

/-- Log line of `execute_query`'s `except mysql.connector.Error` clause. -/
def mysqlLog (msg : String) : LogEntry :=
  .error ("MySQL error occurred: " ++ msg)

/-- Log line of `execute_query`'s `except Exception` clause. -/
def unexpectedLog (msg : String) : LogEntry :=
  .error ("An unexpected error occurred: " ++ msg)

/-- The log line `execute_query` writes when it catches a raised error. -/
def caughtLog (mysqlKind : Bool) (msg : String) : LogEntry :=
  if mysqlKind then mysqlLog msg else unexpectedLog msg

/-- `get_connection`: take a connection from the pool; on a
`mysql.connector.Error` (database unreachable, or `PoolError` when the pool
is exhausted) log the failure and re-raise (modelled as `Except.error`). -/
def get_connection (fault : Fault) (st : SysState) : Except String Unit × SysState :=
  match fault with
  | .atAcquire msg =>
      (.error msg,
       { st with log := st.log ++ [.error ("Failed to get a connection from the pool: " ++ msg)] })
  | _ =>
      if st.avail = 0 then
        (.error "Failed getting connection; pool exhausted",
         { st with log := st.log ++
             [.error "Failed to get a connection from the pool: Failed getting connection; pool exhausted"] })
      else (.ok (), { st with avail := st.avail - 1 })

/-- The Python value `execute_query` returns: `None`, a single row (a tuple,
from `fetchone`), or a list of rows (from `fetchall`). -/
inductive PyResult where
  | none
  | row (r : Row)
  | rows (rs : List Row)
deriving DecidableEq, Repr

/-- The body of `execute_query`'s try block after connection and cursor are
obtained: run the statement, commit if asked, fetch.  Returns either the
fetched result or, when an error is raised and caught, the log entry the
except clause writes; paired with the database as it stands after the call
(committed changes kept, uncommitted changes rolled back when the connection
is returned to the pool). -/
def tryBody (fault : Fault) (stmt : Stmt) (fetchall commit : Bool) (db : DB) :
    Except LogEntry PyResult × DB :=
  match fault with
  | .atExecute k msg => (.error (caughtLog k msg), db)
  | _ =>
    match runStmt stmt db with
    | .error msg => (.error (mysqlLog msg), db)
    | .ok (dbNew, rws) =>
      match fault, commit with
      | .atCommit k msg, true => (.error (caughtLog k msg), db)
      | _, _ =>
        let dbC := if commit then dbNew else db
        match fault with
        | .atFetch k msg => (.error (caughtLog k msg), dbC)
        | _ =>
          if fetchall then (.ok (.rows rws), dbC)
          else
            match rws.head? with
            | Option.none => (.ok .none, dbC)
            | Option.some r => (.ok (.row r), dbC)

/-- `execute_query(query, params, fetchall, commit)`: acquire a connection
and cursor, execute, optionally commit, fetch one or all rows; every raised
error is caught, logged, and turned into a `None` return; the finally clause
closes cursor and connection (returning the connection to the pool) on every
exit path. -/
def execute_query (fault : Fault) (stmt : Stmt) (fetchall commit : Bool)
    (st : SysState) : PyResult × SysState :=
  match get_connection fault st with
  | (.error msg, st1) =>
      (.none, { st1 with log := st1.log ++ [mysqlLog msg] })
  | (.ok _, st1) =>
      match fault with
      | .atCursor k msg =>
          (.none, { st1 with avail := st1.avail + 1, log := st1.log ++ [caughtLog k msg] })
      | _ =>
          match tryBody fault stmt fetchall commit st1.db with
          | (.error entry, db2) =>
              (.none, { st1 with db := db2, avail := st1.avail + 1, log := st1.log ++ [entry] })
          | (.ok res, db2) =>
              (res, { st1 with db := db2, avail := st1.avail + 1 })

/-- Python truthiness of an `execute_query` result: `None` and empty
containers are falsy, a non-empty tuple or list is truthy. -/
def pyTruthy : PyResult → Bool
  | .none => false
  | .row r => !r.isEmpty
  | .rows rs => !rs.isEmpty

/-- A Python value a helper returns: `None` (or another falsy non-boolean
returned as-is by `x and y`), or a genuine `bool`. -/
inductive PyVal where
  | vNone
  | vBool (b : Bool)
deriving DecidableEq, Repr

/-- Truthiness of a helper return value. -/
def PyVal.truthy : PyVal → Bool
  | .vNone => false
  | .vBool b => b

/-- Python equality of a cell value with a string (`1 == "x"` is `False`). -/
def valEqStr (v : Val) (s : String) : Bool :=
  match v with
  | .str p => p == s
  | .int _ => false

/-- Crude rendering of a result value for the debug log line. -/
def pyRepr : PyResult → String
  | .none => "None"
  | .row _ => "tuple"
  | .rows _ => "list"

/-- `init_db`: the three `CREATE TABLE IF NOT EXISTS` statements, issued in
one try block.  `execute_query` catches every error internally and returns
normally, so no call raises, the except clause is dead code, and the final
info line is always written.  One `Fault` per call describes the driver
behaviour of that call. -/
def init_db (f1 f2 f3 : Fault) (st : SysState) : SysState :=
  let st1 := (execute_query f1 .createUsers false true st).2
  let st2 := (execute_query f2 .createTraped false true st1).2
  let st3 := (execute_query f3 .createMessage false true st2).2
  { st3 with log := st3.log ++ [.info "All necessary tables checked/created."] }

/-- `check_if_user_exists(uid)`: `bool(execute_query("SELECT 1 FROM USERS
WHERE UID=%s", (uid,), fetchall=True))`, with its two debug log lines. -/
def check_if_user_exists (fault : Fault) (uid : String) (st : SysState) :
    Bool × SysState :=
  let st0 := { st with log := st.log ++ [LogEntry.debug ("Checking if user exists with UID: " ++ uid)] }
  let q := execute_query fault (.selectOneUser uid) true false st0
  let st2 := { q.2 with log := q.2.log ++ [LogEntry.debug ("Result: " ++ pyRepr q.1)] }
  (pyTruthy q.1, st2)

/-- `insert_into_user(uid, email, pas)`: INSERT with commit, then the
success info line, returning `None` unconditionally. -/
def insert_into_user (fault : Fault) (uid email pas : String) (st : SysState) :
    PyVal × SysState :=
  let st1 := (execute_query fault (.insertUsers uid email pas) false true st).2
  (.vNone, { st1 with log := st1.log ++ [.info ("User added: " ++ uid)] })

/-- `check_user_credential(uid, pas)`: fetch one row of `SELECT PASSWORD
FROM USERS WHERE UID=%s`, then `return result and result[0] == pas` — when
`result` is falsy (`None`) it is returned unchanged, otherwise the boolean
comparison of its first component with `pas` is returned. -/
def check_user_credential (fault : Fault) (uid pas : String) (st : SysState) :
    PyVal × SysState :=
  let q := execute_query fault (.selectPasswordUser uid) false false st
  if pyTruthy q.1 then
    match q.1 with
    | .row (v :: _) => (.vBool (valEqStr v pas), q.2)
    | .rows (_ :: _) => (.vBool false, q.2)
    | _ => (.vBool false, q.2)
  else (.vNone, q.2)

/-- `insert_into_traped(owner, site, uid, pas)`: INSERT with commit, then
the success info line, returning `None` unconditionally. -/
def insert_into_traped (fault : Fault) (owner site uid pas : String) (st : SysState) :
    PyVal × SysState :=
  let st1 := (execute_query fault (.insertTraped owner site uid pas) false true st).2
  (.vNone, { st1 with log := st1.log ++ [.info ("User trapped: " ++ uid)] })

/-- Count extraction of `get_traped_data_for_owner`:
`count = count_result[0] if count_result and isinstance(count_result, tuple)
else 0`.  A fetchone result is `None` or a non-empty tuple, so the guarded
branch reads the first component. -/
def countFromGuarded (countResult : PyResult) : Val :=
  match countResult with
  | .row (v :: _) => v
  | _ => .int 0

/-- Count extraction of the other pair helpers:
`n = count_result[0] if isinstance(count_result, tuple) else count_result or 0`;
`None or 0` evaluates to `0`. -/
def countFromTernary (countResult : PyResult) : Val :=
  match countResult with
  | .row (v :: _) => v
  | _ => .int 0

/-- `get_traped_data_for_owner(uid)`: detail query (fetch all) plus count
query (fetch one), returned as the pair `[detail, count]`. -/
def get_traped_data_for_owner (f1 f2 : Fault) (uid : String) (st : SysState) :
    (PyResult × Val) × SysState :=
  let d := execute_query f1 (.selectTrapedOwner uid) true false st
  let cq := execute_query f2 (.countTrapedOwner uid) false false d.2
  ((d.1, countFromGuarded cq.1), cq.2)

/-- `get_traped_data()`: all TRAPED rows plus their count, as `[detail, n]`. -/
def get_traped_data (f1 f2 : Fault) (st : SysState) : (PyResult × Val) × SysState :=
  let d := execute_query f1 .selectTrapedAll true false st
  let cq := execute_query f2 .countTrapedAll false false d.2
  ((d.1, countFromTernary cq.1), cq.2)

/-- `get_user_data()`: all USERS rows plus their count, as `[detail, n]`. -/
def get_user_data (f1 f2 : Fault) (st : SysState) : (PyResult × Val) × SysState :=
  let d := execute_query f1 .selectUsersAll true false st
  let cq := execute_query f2 .countUsersAll false false d.2
  ((d.1, countFromTernary cq.1), cq.2)

/-- `save_feedback(uid, name, email, msg)`: INSERT with commit, then the
success info line, returning `None` unconditionally. -/
def save_feedback (fault : Fault) (uid name email msg : String) (st : SysState) :
    PyVal × SysState :=
  let st1 := (execute_query fault (.insertMessage uid name email msg) false true st).2
  (.vNone, { st1 with log := st1.log ++ [.info ("Feedback saved: " ++ uid)] })

/-- `get_feedback_data()`: all MESSAGE rows plus their count, as `[detail, n]`. -/
def get_feedback_data (f1 f2 : Fault) (st : SysState) : (PyResult × Val) × SysState :=
  let d := execute_query f1 .selectMessageAll true false st
  let cq := execute_query f2 .countMessageAll false false d.2
  ((d.1, countFromTernary cq.1), cq.2)

/-- Does the statement itself fail on this database (missing table,
duplicate key)? -/
def stmtErrs (stmt : Stmt) (db : DB) : Bool :=
  match runStmt stmt db with
  | .ok _ => false
  | .error _ => true

/-- Does the injected fault fire during a call with this commit flag?
`atCommit` only fires when a commit is requested. -/
def faultFires : Fault → Bool → Bool
  | .noFault, _ => false
  | .atCommit _ _, commit => commit
  | _, _ => true

/-- Does this `execute_query` call fail (raise somewhere inside the try
block): injected fault fires, pool cannot produce a connection, or the
statement itself errors? -/
def callFails (fault : Fault) (stmt : Stmt) (commit : Bool) (st : SysState) : Bool :=
  faultFires fault commit || decide (st.avail = 0) || stmtErrs stmt st.db

/-- A database with all three tables created and no rows. -/
def dbEmpty : DB := ⟨true, true, true, [], [], []⟩

/-- A fresh system state over `dbEmpty` with the reference pool size 4. -/
def stEmpty : SysState := ⟨dbEmpty, 4, []⟩

/-- A system state whose USERS table holds one row (u1, a@b.com, pw1). -/
def stOneUser : SysState := ⟨⟨true, true, true, [("u1", "a@b.com", "pw1")], [], []⟩, 4, []⟩

/-- A system state in which no table has been created yet. -/
def stNoTables : SysState := ⟨⟨false, false, false, [], [], []⟩, 4, []⟩

/- ### Executor lemmas shared by the claim theorems -/

/-- The finally clause restores the pool on every path. -/
lemma execute_query_avail (fault : Fault) (stmt : Stmt) (fa c : Bool) (st : SysState) :
    ((execute_query fault stmt fa c st).2).avail = st.avail := by
  by_cases h : st.avail = 0
  · cases fault <;> simp [execute_query, get_connection, h]
  · rcases fault with _ | m | ⟨k, m⟩ | ⟨k, m⟩ | ⟨k, m⟩ | ⟨k, m⟩
    · simp [execute_query, get_connection, h]
      rcases htb : tryBody .noFault stmt fa c st.db with ⟨e | r, db2⟩ <;> simp [htb] <;> omega
    · simp [execute_query, get_connection, h]
    · simp [execute_query, get_connection, h]; omega
    · simp [execute_query, get_connection, h]
      rcases htb : tryBody (.atExecute k m) stmt fa c st.db with ⟨e | r, db2⟩ <;>
        simp [htb] <;> omega
    · simp [execute_query, get_connection, h]
      rcases htb : tryBody (.atCommit k m) stmt fa c st.db with ⟨e | r, db2⟩ <;>
        simp [htb] <;> omega
    · simp [execute_query, get_connection, h]
      rcases htb : tryBody (.atFetch k m) stmt fa c st.db with ⟨e | r, db2⟩ <;>
        simp [htb] <;> omega

/-- A failing call returns `None` and appends an error-level log line. -/
lemma execute_query_fails (fault : Fault) (stmt : Stmt) (fa c : Bool) (st : SysState)
    (h : callFails fault stmt c st = true) :
    (execute_query fault stmt fa c st).1 = .none ∧
    (∃ msg, ((execute_query fault stmt fa c st).2).log.getLast? = some (.error msg)) ∧
    st.log.length < ((execute_query fault stmt fa c st).2).log.length := by
  by_cases ha : st.avail = 0
  · rcases fault with _ | m | ⟨k, m⟩ | ⟨k, m⟩ | ⟨k, m⟩ | ⟨k, m⟩ <;>
      simp [execute_query, get_connection, ha, mysqlLog, List.getLast?_concat]
  · rcases fault with _ | m | ⟨k, m⟩ | ⟨k, m⟩ | ⟨k, m⟩ | ⟨k, m⟩
    · have hs : stmtErrs stmt st.db = true := by
        simp [callFails, faultFires, ha] at h; exact h
      rcases hrun : runStmt stmt st.db with m | p
      · simp [execute_query, get_connection, ha, tryBody, hrun, mysqlLog, List.getLast?_concat]
      · simp [stmtErrs, hrun] at hs
    · simp [execute_query, get_connection, mysqlLog, List.getLast?_concat]
    · cases k <;>
        simp [execute_query, get_connection, ha, caughtLog, mysqlLog, unexpectedLog,
          List.getLast?_concat]
    · rcases hrun : runStmt stmt st.db with m2 | p <;> cases k <;>
        simp [execute_query, get_connection, ha, tryBody, hrun, caughtLog, mysqlLog,
          unexpectedLog, List.getLast?_concat]
    · rcases hrun : runStmt stmt st.db with m2 | p
      · cases k <;>
          simp [execute_query, get_connection, ha, tryBody, hrun, caughtLog, mysqlLog,
            unexpectedLog, List.getLast?_concat]
      · have hc : c = true := by
          simp [callFails, faultFires, ha, stmtErrs, hrun] at h; exact h
        subst hc
        cases k <;>
          simp [execute_query, get_connection, ha, tryBody, hrun, caughtLog, mysqlLog,
            unexpectedLog, List.getLast?_concat]
    · rcases hrun : runStmt stmt st.db with m2 | p <;> cases k <;> cases c <;>
        simp [execute_query, get_connection, ha, tryBody, hrun, caughtLog, mysqlLog,
          unexpectedLog, List.getLast?_concat]

/-- A fault-free call on a statement that succeeds fetches as asked, commits
(or rolls back) the statement's database update, restores the pool and
leaves the log untouched. -/
lemma execute_query_ok (stmt : Stmt) (fa c : Bool) (st : SysState)
    (h : 0 < st.avail) (db2 : DB) (rws : List Row)
    (hrun : runStmt stmt st.db = .ok (db2, rws)) :
    (execute_query .noFault stmt fa c st).1 =
      (if fa then PyResult.rows rws else
        match rws.head? with
        | Option.none => PyResult.none
        | Option.some r => PyResult.row r) ∧
    ((execute_query .noFault stmt fa c st).2).db = (if c then db2 else st.db) ∧
    ((execute_query .noFault stmt fa c st).2).avail = st.avail ∧
    ((execute_query .noFault stmt fa c st).2).log = st.log := by
  have ha : ¬ st.avail = 0 := by omega
  cases c <;> cases fa <;>
    simp [execute_query, get_connection, ha, tryBody, hrun] <;>
    first
      | omega
      | (rcases rws with _ | ⟨r, t⟩ <;> simp <;> omega)

/- ### List lemmas -/

/-- A filtered-and-mapped list is non-empty exactly when some element
satisfies the filter. -/
lemma not_isEmpty_filter_map {α β : Type} (l : List α) (p : α → Bool) (f : α → β) :
    (!(((l.filter p).map f).isEmpty)) = l.any p := by
  induction l with
  | nil => rfl
  | cons a t ih =>
    cases hpa : p a <;> simp [List.filter_cons, hpa, List.any_cons, ih]

/-- When no element satisfies the predicate, the filter is empty. -/
lemma filter_eq_nil_of_any_false {α : Type} (l : List α) (p : α → Bool)
    (h : l.any p = false) : l.filter p = [] := by
  rw [List.any_eq_false] at h
  exact List.filter_eq_nil_iff.mpr (fun a ha => by simp [h a ha])

/-- Under uniqueness of the first components, comparing the first row whose
first component matches against a password is the same as asking whether
some row matches on both components. -/
lemma head_filter_eq_any (uid pas : String) (l : List (String × String × String))
    (hnd : (l.map (fun u => u.1)).Nodup) :
    (match (l.filter (fun u => u.1 == uid)).head? with
     | Option.none => false
     | Option.some u => u.2.2 == pas) = l.any (fun u => u.1 == uid && u.2.2 == pas) := by
  induction l with
  | nil => rfl
  | cons a t ih =>
    rw [List.map_cons, List.nodup_cons] at hnd
    cases hpa : (a.1 == uid)
    · simp only [List.filter_cons, hpa, List.any_cons, Bool.false_and, Bool.false_or]
      exact ih hnd.2
    · have hmem : t.any (fun u => u.1 == uid && u.2.2 == pas) = false := by
        rw [List.any_eq_false]
        intro u hu
        simp only [Bool.and_eq_true, beq_iff_eq, not_and]
        intro h1
        exfalso
        exact hnd.1 (by
          rw [List.mem_map]
          exact ⟨u, hu, by rw [h1]; exact (beq_iff_eq.mp hpa).symm ▸ rfl⟩)
      simp only [List.filter_cons, hpa, List.any_cons, hmem, Bool.or_false, List.head?_cons]
      cases hppw : (a.2.2 == pas) <;> simp [hppw]

/- ### Helper-value lemmas -/

/-- Fault-free `check_if_user_exists` returns whether some USERS row has the
given uid. -/
lemma check_if_user_exists_val (uid : String) (st : SysState)
    (hc : st.db.usersCreated = true) (ha : 0 < st.avail) :
    (check_if_user_exists .noFault uid st).1 = st.db.users.any (fun u => u.1 == uid) := by
  have hrun : runStmt (.selectOneUser uid) st.db =
      .ok (st.db, (st.db.users.filter (fun u => u.1 == uid)).map (fun _ => [Val.int 1])) := by
    simp [runStmt, hc]
  have hok := execute_query_ok (.selectOneUser uid) true false
      { st with log := st.log ++ [LogEntry.debug ("Checking if user exists with UID: " ++ uid)] }
      ha _ _ hrun
  dsimp only [check_if_user_exists]
  rw [hok.1]
  simp only [if_true]
  dsimp only [pyTruthy]
  rw [not_isEmpty_filter_map]

/-- Fault-free `check_user_credential` returns `None` when no USERS row has
the given uid, and otherwise the boolean comparison of the first matching
row's stored password with the supplied one. -/
lemma check_user_credential_val (uid pas : String) (st : SysState)
    (hc : st.db.usersCreated = true) (ha : 0 < st.avail) :
    (check_user_credential .noFault uid pas st).1 =
      (match (st.db.users.filter (fun u => u.1 == uid)).head? with
       | Option.none => PyVal.vNone
       | Option.some u => PyVal.vBool (u.2.2 == pas)) := by
  have hrun : runStmt (.selectPasswordUser uid) st.db =
      .ok (st.db, (st.db.users.filter (fun u => u.1 == uid)).map (fun u => [Val.str u.2.2])) := by
    simp [runStmt, hc]
  have hok := execute_query_ok (.selectPasswordUser uid) false false st ha _ _ hrun
  have hres : (execute_query .noFault (.selectPasswordUser uid) false false st).1 =
      (match ((st.db.users.filter (fun u => u.1 == uid)).map
          (fun u => [Val.str u.2.2])).head? with
       | Option.none => PyResult.none
       | Option.some r => PyResult.row r) := by simpa using hok.1
  rcases hf : st.db.users.filter (fun u => u.1 == uid) with _ | ⟨u, t⟩ <;>
    (dsimp only [check_user_credential]; rw [hres, hf]) <;> simp [pyTruthy, valEqStr]

/-- A call whose fault is injected at the execute step always fails. -/
lemma callFails_atExecute (k : Bool) (m : String) (stmt : Stmt) (c : Bool) (st : SysState) :
    callFails (.atExecute k m) stmt c st = true := by
  simp [callFails, faultFires]

/- ### Claim theorems -/

/-- C1: for every statement, parameter list, fetch mode and commit flag,
whenever an error occurs during `execute_query` (injected driver fault,
pool failure, or a statement-level error), the call still returns normally
with `None` and an error-level log line is appended — and a fault-free call
on a statement with no matching row also returns `None`, so the caller
cannot tell a failed query from an empty one. -/
theorem execute_query_swallows_all_errors (fault : Fault) (stmt : Stmt) (fa c : Bool)
    (st : SysState) (h : callFails fault stmt c st = true) :
    (execute_query fault stmt fa c st).1 = PyResult.none ∧
    (∃ msg, ((execute_query fault stmt fa c st).2).log.getLast? = some (LogEntry.error msg)) ∧
    st.log.length < ((execute_query fault stmt fa c st).2).log.length ∧
    (∀ stmt2 st2 db2, 0 < st2.avail → runStmt stmt2 st2.db = .ok (db2, []) →
      (execute_query .noFault stmt2 false false st2).1 = PyResult.none) := by
  obtain ⟨h1, h2, h3⟩ := execute_query_fails fault stmt fa c st h
  refine ⟨h1, h2, h3, fun stmt2 st2 db2 ha2 hrun2 => ?_⟩
  simpa using (execute_query_ok stmt2 false false st2 ha2 db2 [] hrun2).1

/-- C1 witness: an injected MySQL error on a SELECT yields `None`, and so
does a fault-free SELECT over an empty table. -/
theorem execute_query_swallows_all_errors_witness :
    (execute_query (Fault.atExecute true "boom") Stmt.selectUsersAll true false stEmpty).1 =
      PyResult.none ∧
    (execute_query Fault.noFault Stmt.selectTrapedAll false false stEmpty).1 = PyResult.none :=
  ⟨(execute_query_swallows_all_errors (Fault.atExecute true "boom") Stmt.selectUsersAll
      true false stEmpty (by decide)).1,
   (execute_query_swallows_all_errors (Fault.atExecute true "boom") Stmt.selectUsersAll
      true false stEmpty (by decide)).2.2.2 Stmt.selectTrapedAll stEmpty stEmpty.db
      (by decide) rfl⟩

/-- C2 counterexample: with the USERS table empty, a fault-free
`check_user_credential` returns `None`, which is not either boolean — so it
does not, as claimed, always return a boolean. -/
theorem check_user_credential_not_boolean_cex :
    (check_user_credential .noFault "u1" "pw" stEmpty).1 = PyVal.vNone ∧
    (check_user_credential .noFault "u1" "pw" stEmpty).1 ≠ PyVal.vBool false ∧
    (check_user_credential .noFault "u1" "pw" stEmpty).1 ≠ PyVal.vBool true := by decide

/-- C2 (amended): under successful execution, `check_user_credential`'s
return value is truthy exactly when a USERS row for the id exists whose
stored password equals the supplied one; when no row matches the id the
returned value is `None` (falsy but not a boolean) rather than `False`. -/
theorem check_user_credential_truthy (uid pas : String) (st : SysState)
    (hc : st.db.usersCreated = true) (ha : 0 < st.avail)
    (hnd : (st.db.users.map (fun u => u.1)).Nodup) :
    ((check_user_credential .noFault uid pas st).1).truthy =
      st.db.users.any (fun u => u.1 == uid && u.2.2 == pas) ∧
    (st.db.users.any (fun u => u.1 == uid) = false →
      (check_user_credential .noFault uid pas st).1 = PyVal.vNone) := by
  constructor
  · rw [check_user_credential_val uid pas st hc ha, ← head_filter_eq_any uid pas _ hnd]
    rcases hfind : (st.db.users.filter (fun u => u.1 == uid)).head? with _ | u <;>
      rw [hfind] <;> rfl
  · intro hnone
    rw [check_user_credential_val uid pas st hc ha,
      filter_eq_nil_of_any_false _ _ hnone]
    rfl

/-- C2 witness: the amended statement evaluated on a one-user database. -/
theorem check_user_credential_truthy_witness :
    ((check_user_credential .noFault "u1" "pw1" stOneUser).1).truthy =
      stOneUser.db.users.any (fun u => u.1 == "u1" && u.2.2 == "pw1") :=
  (check_user_credential_truthy "u1" "pw1" stOneUser (by decide) (by decide) (by decide)).1

/-- C3 counterexample: with no table created and the first `CREATE TABLE`
statement failing, `init_db` still executes the remaining two statements
(TRAPED and MESSAGE exist afterwards, USERS does not) — the single try
block does not abort them, because `execute_query` swallows the error. -/
theorem init_db_no_abort_cex :
    (init_db (.atExecute true "boom") .noFault .noFault stNoTables).db.usersCreated = false ∧
    (init_db (.atExecute true "boom") .noFault .noFault stNoTables).db.trapedCreated = true ∧
    (init_db (.atExecute true "boom") .noFault .noFault stNoTables).db.messageCreated = true := by
  decide

/-- C3 (amended): although the three `CREATE TABLE` statements share one
try block, `execute_query` catches every error internally and never raises,
so whatever happens to the first statement, the remaining two are still
executed: after `init_db` the TRAPED and MESSAGE tables exist. -/
theorem init_db_attempts_remaining (f1 : Fault) (st : SysState) (h : 0 < st.avail) :
    (init_db f1 .noFault .noFault st).db.trapedCreated = true ∧
    (init_db f1 .noFault .noFault st).db.messageCreated = true := by
  have h1 : 0 < ((execute_query f1 .createUsers false true st).2).avail := by
    rw [execute_query_avail]; exact h
  have h2 := execute_query_ok .createTraped false true
      ((execute_query f1 .createUsers false true st).2) h1 _ [] rfl
  have h3 : 0 < ((execute_query .noFault .createTraped false true
      ((execute_query f1 .createUsers false true st).2)).2).avail := by
    rw [execute_query_avail]; exact h1
  have h4 := execute_query_ok .createMessage false true
      ((execute_query .noFault .createTraped false true
        ((execute_query f1 .createUsers false true st).2)).2) h3 _ [] rfl
  constructor
  · dsimp only [init_db]
    rw [h4.2.1]
    simp only [if_true]
    rw [h2.2.1]
    simp
  · dsimp only [init_db]
    rw [h4.2.1]
    simp

/-- C3 witness: the amended statement with the first statement failing. -/
theorem init_db_attempts_remaining_witness :
    (init_db (.atExecute true "boom") .noFault .noFault stNoTables).db.trapedCreated = true ∧
    (init_db (.atExecute true "boom") .noFault .noFault stNoTables).db.messageCreated = true :=
  init_db_attempts_remaining (.atExecute true "boom") stNoTables (by decide)

/-- C4: after a successful fault-free `insert_into_user` of (id, email,
password), `check_if_user_exists id` returns true, `check_user_credential
id password` returns `True`, and for any wrong password it returns
`False`. -/
theorem insert_user_roundtrip (uid email pas wrong : String) (st : SysState)
    (hc : st.db.usersCreated = true) (ha : 0 < st.avail)
    (hfresh : st.db.users.any (fun u => u.1 == uid) = false)
    (hw : wrong ≠ pas) :
    (check_if_user_exists .noFault uid (insert_into_user .noFault uid email pas st).2).1 =
      true ∧
    (check_user_credential .noFault uid pas (insert_into_user .noFault uid email pas st).2).1 =
      PyVal.vBool true ∧
    (check_user_credential .noFault uid wrong
        (insert_into_user .noFault uid email pas st).2).1 = PyVal.vBool false := by
  have hrun : runStmt (.insertUsers uid email pas) st.db =
      .ok ({ st.db with users := st.db.users ++ [(uid, email, pas)] }, []) := by
    simp [runStmt, hc, hfresh]
  have hins := execute_query_ok (.insertUsers uid email pas) false true st ha _ _ hrun
  have hdb : ((insert_into_user .noFault uid email pas st).2).db =
      { st.db with users := st.db.users ++ [(uid, email, pas)] } := by
    dsimp only [insert_into_user]
    rw [hins.2.1]
    simp
  have hav : 0 < ((insert_into_user .noFault uid email pas st).2).avail := by
    dsimp only [insert_into_user]
    rw [hins.2.2.1]
    exact ha
  have hc2 : ((insert_into_user .noFault uid email pas st).2).db.usersCreated = true := by
    rw [hdb]; exact hc
  have hfilter :
      ((insert_into_user .noFault uid email pas st).2).db.users.filter
        (fun u => u.1 == uid) = [(uid, email, pas)] := by
    rw [hdb]
    show (st.db.users ++ [(uid, email, pas)]).filter (fun u => u.1 == uid) = _
    rw [List.filter_append, filter_eq_nil_of_any_false _ _ hfresh]
    simp
  refine ⟨?_, ?_, ?_⟩
  · rw [check_if_user_exists_val uid _ hc2 hav, hdb]
    show (st.db.users ++ [(uid, email, pas)]).any (fun u => u.1 == uid) = true
    simp [List.any_append]
  · rw [check_user_credential_val uid pas _ hc2 hav, hfilter]
    simp
  · rw [check_user_credential_val uid wrong _ hc2 hav, hfilter]
    simp
    exact fun h => hw h.symm

/-- C4 witness: the round trip evaluated on the empty database. -/
theorem insert_user_roundtrip_witness :
    (check_if_user_exists .noFault "u1"
        (insert_into_user .noFault "u1" "a@b.com" "pw1" stEmpty).2).1 = true ∧
    (check_user_credential .noFault "u1" "pw1"
        (insert_into_user .noFault "u1" "a@b.com" "pw1" stEmpty).2).1 = PyVal.vBool true ∧
    (check_user_credential .noFault "u1" "wrong"
        (insert_into_user .noFault "u1" "a@b.com" "pw1" stEmpty).2).1 = PyVal.vBool false :=
  insert_user_roundtrip "u1" "a@b.com" "pw1" "wrong" stEmpty
    (by decide) (by decide) (by decide) (by decide)

/-- C5: under successful execution, `check_if_user_exists` returns true
exactly when at least one USERS row has the given uid; in particular it
returns false when no row has it. -/
theorem user_exists_iff_matching_row (uid : String) (st : SysState)
    (hc : st.db.usersCreated = true) (ha : 0 < st.avail) :
    (check_if_user_exists .noFault uid st).1 = st.db.users.any (fun u => u.1 == uid) ∧
    ((∀ u ∈ st.db.users, u.1 ≠ uid) → (check_if_user_exists .noFault uid st).1 = false) := by
  refine ⟨check_if_user_exists_val uid st hc ha, fun hnone => ?_⟩
  rw [check_if_user_exists_val uid st hc ha, List.any_eq_false]
  intro u hu
  simpa using hnone u hu

/-- C5 witness: the lookup evaluated on a one-user database. -/
theorem user_exists_iff_matching_row_witness :
    (check_if_user_exists .noFault "u1" stOneUser).1 =
      stOneUser.db.users.any (fun u => u.1 == "u1") :=
  (user_exists_iff_matching_row "u1" stOneUser (by decide) (by decide)).1

/-- C6: for a successful execution, fetch mode `all` (fetchall=True)
returns every resulting row as an ordered list of tuples, fetch mode `one`
(fetchall=False) returns the first row as a single tuple or `None` when no
row matched, and a statement producing no result set (the `none` usage,
e.g. an INSERT) returns nothing (`None`). -/
theorem execute_query_fetch_modes (stmt : Stmt) (c : Bool) (st : SysState)
    (h : 0 < st.avail) (db2 : DB) (rws : List Row)
    (hrun : runStmt stmt st.db = .ok (db2, rws)) :
    (execute_query .noFault stmt true c st).1 = PyResult.rows rws ∧
    (execute_query .noFault stmt false c st).1 =
      (match rws.head? with
       | Option.none => PyResult.none
       | Option.some r => PyResult.row r) ∧
    (rws = [] → (execute_query .noFault stmt false c st).1 = PyResult.none) := by
  have h1 := (execute_query_ok stmt true c st h db2 rws hrun).1
  have h2 := (execute_query_ok stmt false c st h db2 rws hrun).1
  refine ⟨by simpa using h1, by simpa using h2, fun he => ?_⟩
  subst he
  simpa using h2

/-- C6 witness: the three fetch behaviours on concrete states. -/
theorem execute_query_fetch_modes_witness :
    (execute_query Fault.noFault Stmt.selectUsersAll true false stOneUser).1 =
      PyResult.rows [[Val.str "u1", Val.str "a@b.com", Val.str "pw1"]] ∧
    (execute_query Fault.noFault Stmt.selectUsersAll false false stOneUser).1 =
      PyResult.row [Val.str "u1", Val.str "a@b.com", Val.str "pw1"] ∧
    (execute_query Fault.noFault Stmt.selectTrapedAll false false stEmpty).1 =
      PyResult.none :=
  ⟨(execute_query_fetch_modes Stmt.selectUsersAll false stOneUser (by decide)
      stOneUser.db [[Val.str "u1", Val.str "a@b.com", Val.str "pw1"]] rfl).1,
   (execute_query_fetch_modes Stmt.selectUsersAll false stOneUser (by decide)
      stOneUser.db [[Val.str "u1", Val.str "a@b.com", Val.str "pw1"]] rfl).2.1,
   (execute_query_fetch_modes Stmt.selectTrapedAll false stEmpty (by decide)
      stEmpty.db [] rfl).2.2 rfl⟩

/-- C7: on every exit path of `execute_query`, success or failure, the
connection taken from the pool is returned to it, so each call leaves the
pool's count of available connections unchanged. -/
theorem execute_query_releases_pool (fault : Fault) (stmt : Stmt) (fa c : Bool)
    (st : SysState) :
    ((execute_query fault stmt fa c st).2).avail = st.avail :=
  execute_query_avail fault stmt fa c st

/-- C8: when the pool cannot produce a connection (driver error or pool
exhausted), `get_connection` logs the failure and re-raises it to its
caller, while `execute_query` — the module's only other error site — still
converts it to a `None` return instead of propagating. -/
theorem get_connection_logs_and_reraises (msg : String) (stmt : Stmt) (fa c : Bool)
    (st : SysState) :
    (get_connection (.atAcquire msg) st).1 = Except.error msg ∧
    ((get_connection (.atAcquire msg) st).2).log =
      st.log ++ [LogEntry.error ("Failed to get a connection from the pool: " ++ msg)] ∧
    (get_connection .noFault { st with avail := 0 }).1 =
      Except.error "Failed getting connection; pool exhausted" ∧
    ((get_connection .noFault { st with avail := 0 }).2).log =
      st.log ++ [LogEntry.error
        "Failed to get a connection from the pool: Failed getting connection; pool exhausted"] ∧
    (execute_query (.atAcquire msg) stmt fa c st).1 = PyResult.none := by
  simp [get_connection, execute_query, mysqlLog]

/-- C9 counterexample: when both underlying queries fail the pair helper
returns `[None, 0]`, but a successful run over an empty table returns
`[[], 0]`, a different value — so the failure result is not, as claimed,
indistinguishable from a successfully queried empty result. -/
theorem pair_helpers_distinguishable_cex :
    (get_traped_data_for_owner (.atExecute true "x") (.atExecute true "y") "o" stEmpty).1 =
      (PyResult.none, Val.int 0) ∧
    (get_traped_data_for_owner .noFault .noFault "o" stEmpty).1 =
      (PyResult.rows [], Val.int 0) ∧
    (get_traped_data_for_owner (.atExecute true "x") (.atExecute true "y") "o" stEmpty).1 ≠
      (get_traped_data_for_owner .noFault .noFault "o" stEmpty).1 := by decide

/-- C9 (amended): when the underlying queries fail, each pair helper
returns `[None, 0]`; the count 0 matches a successful empty result, but the
detail component `None` differs from the list a successful query returns,
so the failure value is distinguishable from every successful result. -/
theorem pair_helpers_none_zero_on_failure (k1 k2 : Bool) (m1 m2 uid : String)
    (st : SysState) (ha : 0 < st.avail) (htc : st.db.trapedCreated = true)
    (huc : st.db.usersCreated = true) (hmc : st.db.messageCreated = true) :
    (get_traped_data_for_owner (.atExecute k1 m1) (.atExecute k2 m2) uid st).1 =
      (PyResult.none, Val.int 0) ∧
    (get_traped_data (.atExecute k1 m1) (.atExecute k2 m2) st).1 = (PyResult.none, Val.int 0) ∧
    (get_user_data (.atExecute k1 m1) (.atExecute k2 m2) st).1 = (PyResult.none, Val.int 0) ∧
    (get_feedback_data (.atExecute k1 m1) (.atExecute k2 m2) st).1 =
      (PyResult.none, Val.int 0) ∧
    (get_traped_data_for_owner .noFault .noFault uid st).1.1 ≠ PyResult.none ∧
    (get_traped_data .noFault .noFault st).1.1 ≠ PyResult.none ∧
    (get_user_data .noFault .noFault st).1.1 ≠ PyResult.none ∧
    (get_feedback_data .noFault .noFault st).1.1 ≠ PyResult.none := by
  refine ⟨?_, ?_, ?_, ?_, ?_, ?_, ?_, ?_⟩
  · dsimp only [get_traped_data_for_owner]
    rw [(execute_query_fails _ _ _ _ _ (callFails_atExecute k1 m1 _ _ _)).1,
      (execute_query_fails _ _ _ _ _ (callFails_atExecute k2 m2 _ _ _)).1]
    rfl
  · dsimp only [get_traped_data]
    rw [(execute_query_fails _ _ _ _ _ (callFails_atExecute k1 m1 _ _ _)).1,
      (execute_query_fails _ _ _ _ _ (callFails_atExecute k2 m2 _ _ _)).1]
    rfl
  · dsimp only [get_user_data]
    rw [(execute_query_fails _ _ _ _ _ (callFails_atExecute k1 m1 _ _ _)).1,
      (execute_query_fails _ _ _ _ _ (callFails_atExecute k2 m2 _ _ _)).1]
    rfl
  · dsimp only [get_feedback_data]
    rw [(execute_query_fails _ _ _ _ _ (callFails_atExecute k1 m1 _ _ _)).1,
      (execute_query_fails _ _ _ _ _ (callFails_atExecute k2 m2 _ _ _)).1]
    rfl
  · have hrun : runStmt (.selectTrapedOwner uid) st.db =
        .ok (st.db, (st.db.traped.filter (fun t => t.1 == uid)).map
          (fun t => [Val.str t.1, Val.str t.2.1, Val.str t.2.2.1, Val.str t.2.2.2])) := by
      simp [runStmt, htc]
    dsimp only [get_traped_data_for_owner]
    rw [(execute_query_ok _ true false st ha _ _ hrun).1]
    simp
  · have hrun : runStmt .selectTrapedAll st.db =
        .ok (st.db, st.db.traped.map
          (fun t => [Val.str t.1, Val.str t.2.1, Val.str t.2.2.1, Val.str t.2.2.2])) := by
      simp [runStmt, htc]
    dsimp only [get_traped_data]
    rw [(execute_query_ok _ true false st ha _ _ hrun).1]
    simp
  · have hrun : runStmt .selectUsersAll st.db =
        .ok (st.db, st.db.users.map
          (fun u => [Val.str u.1, Val.str u.2.1, Val.str u.2.2])) := by
      simp [runStmt, huc]
    dsimp only [get_user_data]
    rw [(execute_query_ok _ true false st ha _ _ hrun).1]
    simp
  · have hrun : runStmt .selectMessageAll st.db =
        .ok (st.db, st.db.message.map
          (fun m => [Val.str m.1, Val.str m.2.1, Val.str m.2.2.1, Val.str m.2.2.2])) := by
      simp [runStmt, hmc]
    dsimp only [get_feedback_data]
    rw [(execute_query_ok _ true false st ha _ _ hrun).1]
    simp

/-- C9 witness: the failure pair and the distinguishable success value on
the empty database. -/
theorem pair_helpers_none_zero_on_failure_witness :
    (get_traped_data_for_owner (.atExecute true "x") (.atExecute false "y") "o" stEmpty).1 =
      (PyResult.none, Val.int 0) ∧
    (get_traped_data_for_owner .noFault .noFault "o" stEmpty).1.1 ≠ PyResult.none :=
  ⟨(pair_helpers_none_zero_on_failure true false "x" "y" "o" stEmpty
      (by decide) (by decide) (by decide) (by decide)).1,
   (pair_helpers_none_zero_on_failure true false "x" "y" "o" stEmpty
      (by decide) (by decide) (by decide) (by decide)).2.2.2.2.1⟩

/-- C10: every insert helper writes its success info line and returns no
value (`None`) unconditionally, whatever happened to the underlying INSERT,
so the caller cannot observe whether the write succeeded. -/
theorem insert_helpers_unconditional_success_log (fault : Fault)
    (owner site uid email pas name msg : String) (st : SysState) :
    (insert_into_user fault uid email pas st).1 = PyVal.vNone ∧
    ((insert_into_user fault uid email pas st).2).log.getLast? =
      some (LogEntry.info ("User added: " ++ uid)) ∧
    (insert_into_traped fault owner site uid pas st).1 = PyVal.vNone ∧
    ((insert_into_traped fault owner site uid pas st).2).log.getLast? =
      some (LogEntry.info ("User trapped: " ++ uid)) ∧
    (save_feedback fault uid name email msg st).1 = PyVal.vNone ∧
    ((save_feedback fault uid name email msg st).2).log.getLast? =
      some (LogEntry.info ("Feedback saved: " ++ uid)) := by
  refine ⟨rfl, ?_, rfl, ?_, rfl, ?_⟩ <;>
    simp [insert_into_user, insert_into_traped, save_feedback, List.getLast?_concat]

end DBHelper
